import Mathlib

/-!
Shallow embedding of `src/worker.js` — a Telegram TTS bot on a Cloudflare
Worker that turns inbound chat messages into Gemini-synthesized speech,
wraps the raw PCM in a WAV container and uploads it back to the chat.

Bytes are modelled as `Nat` values; buffers as `List Nat`.  The external
world (Telegram and Gemini HTTP calls) is modelled by an oracle structure
`World` fixing the outcome of every outbound call, and the pipeline
returns an explicit trace of outbound events together with the result
that escapes the handler (normal return or an uncaught thrown error).
-/

namespace Worker

/-- Little-endian 16-bit write, as JS `DataView.setUint16(·, v, true)`:
the value is reduced mod 2^16 and stored low byte first. -/
def le16 (v : Nat) : List Nat := [v % 256, v / 256 % 256]

/-- Little-endian 32-bit write, as JS `DataView.setUint32(·, v, true)`:
the value is reduced mod 2^32 and stored low byte first. -/
def le32 (v : Nat) : List Nat :=
  [v % 256, v / 256 % 256, v / 65536 % 256, v / 16777216 % 256]

/-- `pcmToWav(pcmData, sampleRate, channels)` from `src/worker.js`
(lines 123–159): builds the 44-byte RIFF/WAVE header for 16-bit PCM and
appends the sample bytes unmodified.  The byte constants are the ASCII
codes written by `writeString` for RIFF, WAVE, fmt(space) and data;
`blockAlign = channels * 2`, `byteRate = sampleRate * blockAlign`,
`dataSize = pcmData.length`, `fileSize = 36 + dataSize`. -/
def pcmToWav (pcmData : List Nat) (sampleRate channels : Nat) : List Nat :=
  [82, 73, 70, 70] ++ le32 (36 + pcmData.length) ++
  [87, 65, 86, 69] ++ [102, 109, 116, 32] ++
  le32 16 ++ le16 1 ++ le16 channels ++ le32 sampleRate ++
  le32 (sampleRate * (channels * 2)) ++ le16 (channels * 2) ++ le16 16 ++
  [100, 97, 116, 97] ++ le32 pcmData.length ++ pcmData

/-- Reads back a little-endian 16-bit field at byte offset `off`. -/
def readLE16 (l : List Nat) (off : Nat) : Nat :=
  l.getD off 0 + 256 * l.getD (off + 1) 0

/-- Reads back a little-endian 32-bit field at byte offset `off`. -/
def readLE32 (l : List Nat) (off : Nat) : Nat :=
  l.getD off 0 + 256 * l.getD (off + 1) 0 +
  65536 * l.getD (off + 2) 0 + 16777216 * l.getD (off + 3) 0

/-- ECMAScript whitespace as recognized by `String.prototype.trim`:
WhiteSpace (tab, VT, FF, space, NBSP, BOM, Unicode Zs) and
LineTerminator (LF, CR, LS, PS). -/
def isJsWs (c : Char) : Bool :=
  c = ' ' || c = '\t' || c = '\n' || c = '\x0b' || c = '\x0c' || c = '\r' ||
  c = '\u00a0' || c = '\u1680' || ('\u2000' ≤ c && c ≤ '\u200a') ||
  c = '\u2028' || c = '\u2029' || c = '\u202f' || c = '\u205f' ||
  c = '\u3000' || c = '\ufeff'

/-- JS `text.trim()`: strips leading and trailing whitespace. -/
def jsTrim (s : String) : String :=
  ⟨((s.toList.dropWhile isJsWs).reverse.dropWhile isJsWs).reverse⟩

/-- The guard at `src/worker.js` line 41, `!text || text.trim() === ''`:
true when the message text is absent (`undefined`), the empty string
(falsy), or trims to the empty string. -/
def msgTextEmpty : Option String → Bool
  | none => true
  | some t => t == "" || jsTrim t == ""

/-- The notification texts sent by `handleMessage` via `sendMessage`. -/
def welcomeText : String :=
  "Send me any text and I\x27ll convert it to speech using Gemini AI!"

def promptText : String := "Please send me some text to convert to speech."

def processingText : String := "🎵 Converting text to speech..."

def synthFailText : String :=
  "❌ Sorry, failed to generate speech. Please try again."

def genericErrText : String :=
  "❌ An error occurred while processing your request."

/-- Outbound calls the worker makes, recorded in order: a `sendMessage`
POST with the given text, the Gemini synthesis POST, an invocation of
the `pcmToWav` encoder, and the `sendVoice` multipart POST. -/
inductive Ev
  | notify (text : String)
  | synthFetch
  | encode
  | deliverFetch
  deriving DecidableEq, Repr

/-- A JS exception escaping a call: a thrown transport error from
`fetch`, or the `Error` thrown by `sendVoiceMessage` on a non-success
Telegram status (line 192). -/
inductive JsErr
  | fetchFail
  | deliveryErr (status : Nat)
  deriving DecidableEq, Repr

instance : DecidableEq (Except JsErr Unit) := fun a b =>
  match a, b with
  | .ok (), .ok () => .isTrue rfl
  | .error e, .error f =>
    if h : e = f then .isTrue (by rw [h]) else .isFalse (by simp [h])
  | .ok _, .error _ => .isFalse (by simp)
  | .error _, .ok _ => .isFalse (by simp)

/-- Oracle fixing the outcome of every outbound call in one invocation:
whether the n-th `sendMessage` fetch resolves (vs. throws), whether the
Gemini fetch resolves, its `response.ok`, whether the JSON carries the
nested `inlineData.data` field, whether `atob` succeeds, the decoded PCM
bytes, whether the `sendVoice` fetch resolves, its `response.ok` and
status code. -/
structure World where
  notifyOk : Nat → Bool
  synthFetchOk : Bool
  synthStatusOk : Bool
  synthHasAudio : Bool
  atobOk : Bool
  synthAudio : List Nat
  deliverFetchOk : Bool
  deliverStatusOk : Bool
  deliverStatus : Nat

/-- `sendMessage` (lines 161–174): a single `fetch` whose response is
never inspected — a non-success status is silently ignored; only a
thrown transport error escapes.  `n` counts `sendMessage` calls made so
far in this invocation. -/
def sendMessage (w : World) (n : Nat) : Except JsErr Unit :=
  if w.notifyOk n then .ok () else .error .fetchFail

/-- `generateSpeech` (lines 66–121): POSTs to Gemini; returns `none`
(JS `null`) when the fetch throws, `response.ok` is false, the nested
audio field is missing, or `atob` throws (all caught by its own
`try`/`catch`); otherwise base64-decodes the payload and returns
`pcmToWav(audio, 24000, 1)`.  Also returns the outbound-call trace. -/
def generateSpeech (w : World) : Option (List Nat) × List Ev :=
  if !w.synthFetchOk then (none, [.synthFetch])
  else if !w.synthStatusOk then (none, [.synthFetch])
  else if !w.synthHasAudio then (none, [.synthFetch])
  else if !w.atobOk then (none, [.synthFetch])
  else (some (pcmToWav w.synthAudio 24000 1), [.synthFetch, .encode])

/-- `sendVoiceMessage` (lines 176–196): multipart POST of the WAV file;
throws `fetchFail` if the fetch itself throws, and throws
`deliveryErr status` when the platform answers a non-success status
(line 192). -/
def sendVoiceMessage (w : World) : Except JsErr Unit × List Ev :=
  if !w.deliverFetchOk then (.error .fetchFail, [.deliverFetch])
  else if !w.deliverStatusOk then
    (.error (.deliveryErr w.deliverStatus), [.deliverFetch])
  else (.ok (), [.deliverFetch])

/-- Prefixes an event list onto a pipeline result's trace. -/
def withEvs (evs : List Ev) (r : Except JsErr Unit × List Ev) :
    Except JsErr Unit × List Ev :=
  (r.1, evs ++ r.2)

/-- The `catch` block of `handleMessage` (lines 60–63): logs and sends
the generic error text; if that `sendMessage` itself throws, the error
escapes `handleMessage`. -/
def catchBlock (w : World) (n : Nat) : Except JsErr Unit × List Ev :=
  match sendMessage w n with
  | .ok _ => (.ok (), [.notify genericErrText])
  | .error e => (.error e, [.notify genericErrText])

/-- `handleMessage` (lines 29–64): `/start` short-circuits to the
welcome notification; absent/empty/whitespace text to the prompt
notification; otherwise a processing notification, then synthesis (with
encoding inside `generateSpeech`), then a failure notification if
synthesis returned `null`, else the voice upload.  Every throw inside
the `try` lands in `catchBlock`. -/
def handleMessage (w : World) (text : Option String) :
    Except JsErr Unit × List Ev :=
  if text = some "/start" then
    match sendMessage w 0 with
    | .ok _ => (.ok (), [.notify welcomeText])
    | .error _ => withEvs [.notify welcomeText] (catchBlock w 1)
  else if msgTextEmpty text then
    match sendMessage w 0 with
    | .ok _ => (.ok (), [.notify promptText])
    | .error _ => withEvs [.notify promptText] (catchBlock w 1)
  else
    match sendMessage w 0 with
    | .error _ => withEvs [.notify processingText] (catchBlock w 1)
    | .ok _ =>
      match generateSpeech w with
      | (none, sevs) =>
        match sendMessage w 1 with
        | .ok _ =>
          (.ok (), [.notify processingText] ++ sevs ++ [.notify synthFailText])
        | .error _ =>
          withEvs ([.notify processingText] ++ sevs ++ [.notify synthFailText])
            (catchBlock w 2)
      | (some _, sevs) =>
        match sendVoiceMessage w with
        | (.ok _, devs) => (.ok (), [.notify processingText] ++ sevs ++ devs)
        | (.error _, devs) =>
          withEvs ([.notify processingText] ++ sevs ++ devs) (catchBlock w 1)

/-- The top-level `fetch` handler (lines 2–27).  `body` is the outcome
of `request.json()`: `.error` when parsing throws, otherwise the
(possibly absent) `update.message` carrying its (possibly absent) text
field.  Returns the HTTP status and body plus the outbound-call trace. -/
def workerFetch (w : World) (method : String)
    (body : Except Unit (Option (Option String))) :
    (Nat × String) × List Ev :=
  if method = "GET" then ((200, "Bot is running!"), [])
  else if method ≠ "POST" then ((405, "Method not allowed"), [])
  else
    match body with
    | .error _ => ((500, "Error processing request"), [])
    | .ok none => ((200, "OK"), [])
    | .ok (some text) =>
      match handleMessage w text with
      | (.ok _, evs) => ((200, "OK"), evs)
      | (.error _, evs) => ((500, "Error processing request"), evs)

end Worker

namespace Worker

theorem le32_readback (v : Nat) (h : v < 4294967296) :
    v % 256 + 256 * (v / 256 % 256) + 65536 * (v / 65536 % 256) +
      16777216 * (v / 16777216 % 256) = v := by
  omega

theorem le16_readback (v : Nat) (h : v < 65536) :
    v % 256 + 256 * (v / 256 % 256) = v := by
  omega

/-- C1: for every PCM buffer, sample rate and channel count (with the
header fields in 32/16-bit range), `pcmToWav` returns a buffer of length
L+44 whose little-endian fields decode to `dataSize = L` at offset 40,
`fileSize = 36+L` at offset 4, `byteRate = R*C*2` at offset 28,
`blockAlign = C*2` at offset 32, and whose bytes from offset 44 on are
exactly the input. -/
theorem pcmToWav_header_spec (p : List Nat) (r c : Nat)
    (h1 : 36 + p.length < 4294967296) (h2 : r * c * 2 < 4294967296)
    (h3 : c * 2 < 65536) :
    (pcmToWav p r c).length = p.length + 44 ∧
    (pcmToWav p r c).drop 44 = p ∧
    readLE32 (pcmToWav p r c) 40 = p.length ∧
    readLE32 (pcmToWav p r c) 4 = 36 + p.length ∧
    readLE32 (pcmToWav p r c) 28 = r * c * 2 ∧
    readLE16 (pcmToWav p r c) 32 = c * 2 := by
  have hbr : r * (c * 2) = r * c * 2 := by ring
  refine ⟨?_, ?_, ?_, ?_, ?_, ?_⟩ <;>
    simp [pcmToWav, le32, le16, readLE32, readLE16, hbr] <;> omega

/-- Witness for C1 at the spec's example input `[1,2,3,4]`, 24000 Hz,
mono: full output length 48, data-size field bytes 40–43 equal
`04 00 00 00`, file-size field bytes 4–7 equal `28 00 00 00`. -/
theorem pcmToWav_header_spec_witness :
    (((pcmToWav [1, 2, 3, 4] 24000 1).length = 48 ∧
      ((pcmToWav [1, 2, 3, 4] 24000 1).drop 40).take 4 = [4, 0, 0, 0] ∧
      ((pcmToWav [1, 2, 3, 4] 24000 1).drop 4).take 4 = [40, 0, 0, 0]) ∧
     ((pcmToWav [1, 2, 3, 4] 24000 1).length = [1, 2, 3, 4].length + 44 ∧
      (pcmToWav [1, 2, 3, 4] 24000 1).drop 44 = [1, 2, 3, 4] ∧
      readLE32 (pcmToWav [1, 2, 3, 4] 24000 1) 40 = [1, 2, 3, 4].length ∧
      readLE32 (pcmToWav [1, 2, 3, 4] 24000 1) 4 = 36 + [1, 2, 3, 4].length ∧
      readLE32 (pcmToWav [1, 2, 3, 4] 24000 1) 28 = 24000 * 1 * 2 ∧
      readLE16 (pcmToWav [1, 2, 3, 4] 24000 1) 32 = 1 * 2)) :=
  ⟨by decide,
   pcmToWav_header_spec [1, 2, 3, 4] 24000 1 (by decide) (by decide) (by decide)⟩

/-- C9: the encoder is deterministic — two invocations of `pcmToWav` on
identical inputs produce byte-identical outputs. -/
theorem pcmToWav_deterministic (p₁ p₂ : List Nat) (r₁ r₂ c₁ c₂ : Nat)
    (hp : p₁ = p₂) (hr : r₁ = r₂) (hc : c₁ = c₂) :
    pcmToWav p₁ r₁ c₁ = pcmToWav p₂ r₂ c₂ := by
  rw [hp, hr, hc]

/-- Witness for C9 at a concrete input. -/
theorem pcmToWav_deterministic_witness :
    pcmToWav [1, 2, 3, 4] 24000 1 = pcmToWav [1, 2, 3, 4] 24000 1 :=
  pcmToWav_deterministic [1, 2, 3, 4] [1, 2, 3, 4] 24000 24000 1 1 rfl rfl rfl

/-- A world in which every outbound call succeeds. -/
def allOkWorld : World where
  notifyOk := fun _ => true
  synthFetchOk := true
  synthStatusOk := true
  synthHasAudio := true
  atobOk := true
  synthAudio := [1, 2]
  deliverFetchOk := true
  deliverStatusOk := true
  deliverStatus := 200

/-- C4: when the message text is absent, empty, or whitespace-only after
trimming, the handler emits the "please send text" notification, makes
no synthesis call, no encoder invocation and no delivery call, and (when
the notification fetch resolves) returns normally with only that
notification — nothing propagates upward. -/
theorem handleMessage_emptyText (w : World) (text : Option String)
    (h : msgTextEmpty text = true) :
    Ev.synthFetch ∉ (handleMessage w text).2 ∧
    Ev.encode ∉ (handleMessage w text).2 ∧
    Ev.deliverFetch ∉ (handleMessage w text).2 ∧
    Ev.notify promptText ∈ (handleMessage w text).2 ∧
    (w.notifyOk 0 = true →
      handleMessage w text = (.ok (), [.notify promptText])) := by
  have hns : text ≠ some "/start" := by
    intro he
    rw [he] at h
    exact absurd h (by decide)
  unfold handleMessage
  rw [if_neg hns, if_pos h]
  cases h0 : w.notifyOk 0 <;>
    cases h1 : w.notifyOk 1 <;>
      simp [sendMessage, h0, h1, catchBlock, withEvs, Ev.notify.injEq,
        promptText, genericErrText]

/-- Witness for C4 at whitespace-only text in the all-success world. -/
theorem handleMessage_emptyText_witness :
    msgTextEmpty (some "  ") = true ∧
    (Ev.synthFetch ∉ (handleMessage allOkWorld (some "  ")).2 ∧
     Ev.encode ∉ (handleMessage allOkWorld (some "  ")).2 ∧
     Ev.deliverFetch ∉ (handleMessage allOkWorld (some "  ")).2 ∧
     Ev.notify promptText ∈ (handleMessage allOkWorld (some "  ")).2 ∧
     (allOkWorld.notifyOk 0 = true →
       handleMessage allOkWorld (some "  ") = (.ok (), [.notify promptText]))) :=
  ⟨by decide, handleMessage_emptyText allOkWorld (some "  ") (by decide)⟩

/-- C5: when the message text is exactly "/start", the handler emits the
static welcome notification and makes no synthesis call, no encoder
invocation and no delivery call. -/
theorem handleMessage_startCmd (w : World) (text : Option String)
    (h : text = some "/start") :
    Ev.synthFetch ∉ (handleMessage w text).2 ∧
    Ev.encode ∉ (handleMessage w text).2 ∧
    Ev.deliverFetch ∉ (handleMessage w text).2 ∧
    Ev.notify welcomeText ∈ (handleMessage w text).2 ∧
    (w.notifyOk 0 = true →
      handleMessage w text = (.ok (), [.notify welcomeText])) := by
  subst h
  unfold handleMessage
  rw [if_pos rfl]
  cases h0 : w.notifyOk 0 <;>
    cases h1 : w.notifyOk 1 <;>
      simp [sendMessage, h0, h1, catchBlock, withEvs, Ev.notify.injEq,
        welcomeText, genericErrText]

/-- Witness for C5 on "/start" in the all-success world. -/
theorem handleMessage_startCmd_witness :
    (some "/start" = some "/start") ∧
    (Ev.synthFetch ∉ (handleMessage allOkWorld (some "/start")).2 ∧
     Ev.encode ∉ (handleMessage allOkWorld (some "/start")).2 ∧
     Ev.deliverFetch ∉ (handleMessage allOkWorld (some "/start")).2 ∧
     Ev.notify welcomeText ∈ (handleMessage allOkWorld (some "/start")).2 ∧
     (allOkWorld.notifyOk 0 = true →
       handleMessage allOkWorld (some "/start") =
         (.ok (), [.notify welcomeText]))) :=
  ⟨rfl, handleMessage_startCmd allOkWorld (some "/start") rfl⟩

/-- Like `allOkWorld` but the Gemini call answers a non-success status. -/
def synthStatusFailWorld : World where
  notifyOk := fun _ => true
  synthFetchOk := true
  synthStatusOk := false
  synthHasAudio := true
  atobOk := true
  synthAudio := [1, 2]
  deliverFetchOk := true
  deliverStatusOk := true
  deliverStatus := 200

/-- Like `allOkWorld` but the Gemini success response lacks the nested
`candidates[0].content.parts[0].inlineData.data` audio field. -/
def synthNoAudioWorld : World where
  notifyOk := fun _ => true
  synthFetchOk := true
  synthStatusOk := true
  synthHasAudio := false
  atobOk := true
  synthAudio := [1, 2]
  deliverFetchOk := true
  deliverStatusOk := true
  deliverStatus := 200

/-- C6: when the Gemini call resolves with a non-success status on a
valid text message whose processing notification went through,
`generateSpeech` returns null, the "failed to generate speech"
notification is sent, and neither the encoder nor the delivery upload is
invoked. -/
theorem handleMessage_synthBadStatus (w : World) (t : String)
    (hStart : t ≠ "/start") (hNE : msgTextEmpty (some t) = false)
    (h0 : w.notifyOk 0 = true)
    (hf : w.synthFetchOk = true) (hs : w.synthStatusOk = false) :
    generateSpeech w = (none, [.synthFetch]) ∧
    Ev.notify synthFailText ∈ (handleMessage w (some t)).2 ∧
    Ev.encode ∉ (handleMessage w (some t)).2 ∧
    Ev.deliverFetch ∉ (handleMessage w (some t)).2 := by
  have hg : generateSpeech w = (none, [.synthFetch]) := by
    simp [generateSpeech, hf, hs]
  refine ⟨hg, ?_⟩
  unfold handleMessage
  rw [if_neg (fun he => hStart (Option.some.inj he)), if_neg (by simp [hNE])]
  rw [hg]
  cases h1 : w.notifyOk 1 <;>
    cases h2 : w.notifyOk 2 <;>
      simp [sendMessage, h0, h1, h2, catchBlock, withEvs]

/-- Witness for C6 at text "hi" in `synthStatusFailWorld`. -/
theorem handleMessage_synthBadStatus_witness :
    ("hi" ≠ "/start" ∧ msgTextEmpty (some "hi") = false ∧
     synthStatusFailWorld.notifyOk 0 = true ∧
     synthStatusFailWorld.synthFetchOk = true ∧
     synthStatusFailWorld.synthStatusOk = false) ∧
    (generateSpeech synthStatusFailWorld = (none, [.synthFetch]) ∧
     Ev.notify synthFailText ∈ (handleMessage synthStatusFailWorld (some "hi")).2 ∧
     Ev.encode ∉ (handleMessage synthStatusFailWorld (some "hi")).2 ∧
     Ev.deliverFetch ∉ (handleMessage synthStatusFailWorld (some "hi")).2) :=
  ⟨by decide,
   handleMessage_synthBadStatus synthStatusFailWorld "hi" (by decide)
     (by decide) rfl rfl rfl⟩

/-- C7: when the Gemini call resolves successfully but the response JSON
lacks the nested audio field, `generateSpeech` returns null and neither
the encoder nor the delivery upload is invoked. -/
theorem handleMessage_synthNoAudio (w : World) (t : String)
    (hStart : t ≠ "/start") (hNE : msgTextEmpty (some t) = false)
    (h0 : w.notifyOk 0 = true)
    (hf : w.synthFetchOk = true) (hs : w.synthStatusOk = true)
    (ha : w.synthHasAudio = false) :
    generateSpeech w = (none, [.synthFetch]) ∧
    Ev.notify synthFailText ∈ (handleMessage w (some t)).2 ∧
    Ev.encode ∉ (handleMessage w (some t)).2 ∧
    Ev.deliverFetch ∉ (handleMessage w (some t)).2 := by
  have hg : generateSpeech w = (none, [.synthFetch]) := by
    simp [generateSpeech, hf, hs, ha]
  refine ⟨hg, ?_⟩
  unfold handleMessage
  rw [if_neg (fun he => hStart (Option.some.inj he)), if_neg (by simp [hNE])]
  rw [hg]
  cases h1 : w.notifyOk 1 <;>
    cases h2 : w.notifyOk 2 <;>
      simp [sendMessage, h0, h1, h2, catchBlock, withEvs]

/-- Witness for C7 at text "hi" in `synthNoAudioWorld`. -/
theorem handleMessage_synthNoAudio_witness :
    ("hi" ≠ "/start" ∧ msgTextEmpty (some "hi") = false ∧
     synthNoAudioWorld.notifyOk 0 = true ∧
     synthNoAudioWorld.synthFetchOk = true ∧
     synthNoAudioWorld.synthStatusOk = true ∧
     synthNoAudioWorld.synthHasAudio = false) ∧
    (generateSpeech synthNoAudioWorld = (none, [.synthFetch]) ∧
     Ev.notify synthFailText ∈ (handleMessage synthNoAudioWorld (some "hi")).2 ∧
     Ev.encode ∉ (handleMessage synthNoAudioWorld (some "hi")).2 ∧
     Ev.deliverFetch ∉ (handleMessage synthNoAudioWorld (some "hi")).2) :=
  ⟨by decide,
   handleMessage_synthNoAudio synthNoAudioWorld "hi" (by decide)
     (by decide) rfl rfl rfl rfl⟩

/-- C8: on valid text with successful notification, synthesis and
delivery, the handler returns normally and the trace is exactly the
processing notification, the synthesis call, the encoder invocation and
the delivery upload — no failure notification is sent. -/
theorem handleMessage_success (w : World) (t : String)
    (hStart : t ≠ "/start") (hNE : msgTextEmpty (some t) = false)
    (h0 : w.notifyOk 0 = true) (hf : w.synthFetchOk = true)
    (hs : w.synthStatusOk = true) (ha : w.synthHasAudio = true)
    (hb : w.atobOk = true) (hdf : w.deliverFetchOk = true)
    (hds : w.deliverStatusOk = true) :
    handleMessage w (some t) =
      (.ok (), [.notify processingText, .synthFetch, .encode, .deliverFetch]) := by
  unfold handleMessage
  rw [if_neg (fun he => hStart (Option.some.inj he)), if_neg (by simp [hNE])]
  simp [sendMessage, h0, generateSpeech, hf, hs, ha, hb,
    sendVoiceMessage, hdf, hds]

/-- Witness for C8 at text "hi" in the all-success world. -/
theorem handleMessage_success_witness :
    ("hi" ≠ "/start" ∧ msgTextEmpty (some "hi") = false ∧
     allOkWorld.notifyOk 0 = true ∧ allOkWorld.synthFetchOk = true ∧
     allOkWorld.synthStatusOk = true ∧ allOkWorld.synthHasAudio = true ∧
     allOkWorld.atobOk = true ∧ allOkWorld.deliverFetchOk = true ∧
     allOkWorld.deliverStatusOk = true) ∧
    handleMessage allOkWorld (some "hi") =
      (.ok (), [.notify processingText, .synthFetch, .encode, .deliverFetch]) :=
  ⟨by decide,
   handleMessage_success allOkWorld "hi" (by decide) (by decide)
     rfl rfl rfl rfl rfl rfl rfl⟩

/-- Like `allOkWorld` but the Telegram voice upload answers status 400. -/
def deliverFailWorld : World where
  notifyOk := fun _ => true
  synthFetchOk := true
  synthStatusOk := true
  synthHasAudio := true
  atobOk := true
  synthAudio := [1, 2]
  deliverFetchOk := true
  deliverStatusOk := false
  deliverStatus := 400

/-- Like `allOkWorld` but the first `sendMessage` fetch (the processing
notification) throws; later notification fetches resolve. -/
def notifyThrowWorld : World where
  notifyOk := fun n => n != 0
  synthFetchOk := true
  synthStatusOk := true
  synthHasAudio := true
  atobOk := true
  synthAudio := [1, 2]
  deliverFetchOk := true
  deliverStatusOk := true
  deliverStatus := 200

theorem catchBlock_fst (w : World) (n : Nat) :
    (catchBlock w n).1 = .ok () ∨ (catchBlock w n).1 = .error .fetchFail := by
  unfold catchBlock sendMessage
  cases w.notifyOk n <;> simp

theorem handleMessage_fst_no_deliveryErr (w : World) (text : Option String)
    (s : Nat) : (handleMessage w text).1 ≠ .error (.deliveryErr s) := by
  have hcb : ∀ n, (catchBlock w n).1 ≠ Except.error (JsErr.deliveryErr s) := by
    intro n
    rcases catchBlock_fst w n with h | h <;> simp [h]
  unfold handleMessage
  repeat' split
  all_goals first | exact hcb 1 | exact hcb 2 | simp

/-- Counterexample to C2: with synthesis succeeding and the voice upload
answering status 400 (all notification fetches resolving), the handler
swallows the thrown delivery error in its catch block and returns
normally — no `DeliveryError` reaches the invocation boundary, only the
generic failure notification is sent. -/
theorem handleMessage_deliveryErr_swallowed_cex :
    (handleMessage deliverFailWorld (some "hi")).1 = .ok () ∧
    Ev.notify genericErrText ∈ (handleMessage deliverFailWorld (some "hi")).2 := by
  decide

/-- C2 (amended): a non-success status on the voice upload makes
`sendVoiceMessage` throw a `DeliveryError`, but `handleMessage`'s
catch-all catches it, sends the generic failure notification to the
user, and returns normally; in no execution does a `DeliveryError`
escape the message handler to the invocation boundary. -/
theorem handleMessage_deliveryFail (w : World) (t : String)
    (hStart : t ≠ "/start") (hNE : msgTextEmpty (some t) = false)
    (h0 : w.notifyOk 0 = true) (h1 : w.notifyOk 1 = true)
    (hf : w.synthFetchOk = true) (hs : w.synthStatusOk = true)
    (ha : w.synthHasAudio = true) (hb : w.atobOk = true)
    (hdf : w.deliverFetchOk = true) (hds : w.deliverStatusOk = false) :
    handleMessage w (some t) =
      (.ok (), [.notify processingText, .synthFetch, .encode, .deliverFetch,
        .notify genericErrText]) ∧
    (∀ (w' : World) (text : Option String) (s : Nat),
      (handleMessage w' text).1 ≠ .error (.deliveryErr s)) := by
  refine ⟨?_, fun w' text s => handleMessage_fst_no_deliveryErr w' text s⟩
  unfold handleMessage
  rw [if_neg (fun he => hStart (Option.some.inj he)), if_neg (by simp [hNE])]
  simp [sendMessage, h0, h1, generateSpeech, hf, hs, ha, hb,
    sendVoiceMessage, hdf, hds, catchBlock, withEvs]

/-- Witness for the amended C2 at text "hi" in `deliverFailWorld`. -/
theorem handleMessage_deliveryFail_witness :
    ("hi" ≠ "/start" ∧ msgTextEmpty (some "hi") = false ∧
     deliverFailWorld.notifyOk 0 = true ∧ deliverFailWorld.notifyOk 1 = true ∧
     deliverFailWorld.synthFetchOk = true ∧
     deliverFailWorld.synthStatusOk = true ∧
     deliverFailWorld.synthHasAudio = true ∧ deliverFailWorld.atobOk = true ∧
     deliverFailWorld.deliverFetchOk = true ∧
     deliverFailWorld.deliverStatusOk = false) ∧
    (handleMessage deliverFailWorld (some "hi") =
      (.ok (), [.notify processingText, .synthFetch, .encode, .deliverFetch,
        .notify genericErrText]) ∧
    (∀ (w' : World) (text : Option String) (s : Nat),
      (handleMessage w' text).1 ≠ .error (.deliveryErr s))) :=
  ⟨by decide,
   handleMessage_deliveryFail deliverFailWorld "hi" (by decide) (by decide)
     rfl rfl rfl rfl rfl rfl rfl rfl⟩

/-- Counterexample to C3: when the processing notification's fetch
throws (synthesis and delivery would otherwise succeed), the pipeline
does NOT proceed: the catch-all sends the generic failure notification
and returns, and no synthesis call ever happens. -/
theorem handleMessage_notifyThrow_cex :
    handleMessage notifyThrowWorld (some "hi") =
      (.ok (), [.notify processingText, .notify genericErrText]) ∧
    Ev.synthFetch ∉ (handleMessage notifyThrowWorld (some "hi")).2 := by
  decide

/-- C3 (amended): a thrown transport error from the best-effort
processing notification is caught by the handler's catch-all, which
sends a generic failure notification and aborts — synthesis, encoding
and delivery are not invoked; the handler returns normally unless the
catch-all notification itself also throws, in which case that transport
error (not the pipeline state) escapes. -/
theorem handleMessage_notifyThrow (w : World) (t : String)
    (hStart : t ≠ "/start") (hNE : msgTextEmpty (some t) = false)
    (h0 : w.notifyOk 0 = false) :
    (handleMessage w (some t)).2 =
      [.notify processingText, .notify genericErrText] ∧
    Ev.synthFetch ∉ (handleMessage w (some t)).2 ∧
    Ev.deliverFetch ∉ (handleMessage w (some t)).2 ∧
    (w.notifyOk 1 = true → (handleMessage w (some t)).1 = .ok ()) ∧
    (w.notifyOk 1 = false → (handleMessage w (some t)).1 = .error .fetchFail) := by
  unfold handleMessage
  rw [if_neg (fun he => hStart (Option.some.inj he)), if_neg (by simp [hNE])]
  cases h1 : w.notifyOk 1 <;>
    simp [sendMessage, h0, h1, catchBlock, withEvs, Ev.notify.injEq,
      processingText, genericErrText]

/-- Witness for the amended C3 at text "hi" in `notifyThrowWorld`. -/
theorem handleMessage_notifyThrow_witness :
    ("hi" ≠ "/start" ∧ msgTextEmpty (some "hi") = false ∧
     notifyThrowWorld.notifyOk 0 = false) ∧
    ((handleMessage notifyThrowWorld (some "hi")).2 =
      [.notify processingText, .notify genericErrText] ∧
     Ev.synthFetch ∉ (handleMessage notifyThrowWorld (some "hi")).2 ∧
     Ev.deliverFetch ∉ (handleMessage notifyThrowWorld (some "hi")).2 ∧
     (notifyThrowWorld.notifyOk 1 = true →
       (handleMessage notifyThrowWorld (some "hi")).1 = .ok ()) ∧
     (notifyThrowWorld.notifyOk 1 = false →
       (handleMessage notifyThrowWorld (some "hi")).1 = .error .fetchFail)) :=
  ⟨by decide,
   handleMessage_notifyThrow notifyThrowWorld "hi" (by decide) (by decide) rfl⟩

/-- C10: a POST request whose parsed JSON body has no `message` field
makes no outbound call at all (empty trace) and is acknowledged with
status 200 and body "OK". -/
theorem workerFetch_noMessage (w : World) :
    workerFetch w "POST" (.ok none) = ((200, "OK"), []) := by
  rfl

end Worker
